import Mathlib

/-!
Verification of the index-data translation layer
(`src/libANGLE/renderer/d3d/IndexDataManager.cpp`).

The shallow embedding below mirrors the source file: the element-wise
converter (`ConvertIndexArray`, `ConvertIndices`), the streaming write
helper (`StreamInIndexBuffer`), and the orchestrator
(`IndexDataManager::prepareIndexData` / `streamIndexData` /
`getStreamingIndexBuffer`).  External collaborators whose implementation
is not part of the sources (the backend index-buffer objects and
`BufferD3D`) are modelled from the specification of their interfaces.
Memory is modelled as lists of bytes (little-endian), machine integers
as `Nat` with explicit `% 2 ^ w` where the code truncates.
-/

/-- The three source index element types (`GL_UNSIGNED_BYTE`,
`GL_UNSIGNED_SHORT`, `GL_UNSIGNED_INT`). -/
inductive GLType
  | ubyte
  | ushort
  | uint
deriving DecidableEq, Repr

/-- `gl::Type::bytes`: element byte size. -/
def GLType.bytes : GLType → Nat
  | .ubyte => 1
  | .ushort => 2
  | .uint => 4

/-- `gl::Type::bytesShift`: log2 of the element byte size. -/
def GLType.bytesShift : GLType → Nat
  | .ubyte => 0
  | .ushort => 1
  | .uint => 2

/-- `gl::GetPrimitiveRestartIndex`: the all-ones sentinel value of each
element type (the maximum representable value at that width). -/
def restartIndex : GLType → Nat
  | .ubyte => 255
  | .ushort => 65535
  | .uint => 4294967295

/-- The backend renderer class (`RENDERER_D3D11` / `RENDERER_D3D9`). -/
inductive RendererClass
  | d3d11
  | d3d9
deriving DecidableEq, Repr

/-- `std::numeric_limits<unsigned int>::max()`. -/
def UINT_MAX : Nat := 4294967295

/-- `2 ^ 32`, the modulus of `unsigned int` truncation. -/
def U32 : Nat := 4294967296

/-- Little-endian decoding of a list of bytes into a value. -/
def decodeLE : List Nat → Nat
  | [] => 0
  | b :: bs => b % 256 + 256 * decodeLE bs

/-- Reading the `i`-th element of type `ty` from byte memory `mem`,
starting at byte offset `off` (models `static_cast<const InputT *>(p)[i]`). -/
def readElem (mem : List Nat) (ty : GLType) (off i : Nat) : Nat :=
  decodeLE ((mem.drop (off + i * ty.bytes)).take ty.bytes)

/-- `ConvertIndexArray<InputT, DestT>`: element-wise conversion of `count`
elements from `input` (bytes holding `sourceType` elements).  When
`usePrimitiveRestartFixedIndex` is set, elements equal to the source
restart sentinel are written as the destination restart sentinel;
otherwise each element is written via a plain cast (truncation to the
destination width). -/
def convertIndexArray (sourceType destinationType : GLType) (input : List Nat)
    (count : Nat) (usePrimitiveRestartFixedIndex : Bool) : List Nat :=
  if usePrimitiveRestartFixedIndex then
    let srcRestartIndex := restartIndex sourceType % 2 ^ (8 * sourceType.bytes)
    let destRestartIndex := restartIndex destinationType % 2 ^ (8 * destinationType.bytes)
    (List.range count).map fun i =>
      let v := readElem input sourceType 0 i
      if v = srcRestartIndex then destRestartIndex else v % 2 ^ (8 * destinationType.bytes)
  else
    (List.range count).map fun i =>
      readElem input sourceType 0 i % 2 ^ (8 * destinationType.bytes)

/-- `ConvertIndices`: same-type conversion is a `memcpy` (read back as
destination-type elements); `GL_UNSIGNED_BYTE → GL_UNSIGNED_SHORT` and
`GL_UNSIGNED_SHORT → GL_UNSIGNED_INT` go through `ConvertIndexArray`;
every other combination hits the `ASSERT`/`UNREACHABLE` contract
violation, modelled as `none`. -/
def convertIndices (sourceType destinationType : GLType) (input : List Nat)
    (count : Nat) (usePrimitiveRestartFixedIndex : Bool) : Option (List Nat) :=
  if sourceType = destinationType then
    some ((List.range count).map fun i => readElem input destinationType 0 i)
  else if sourceType = .ubyte then
    if destinationType = .ushort then
      some (convertIndexArray .ubyte .ushort input count usePrimitiveRestartFixedIndex)
    else none
  else if sourceType = .ushort then
    if destinationType = .uint then
      some (convertIndexArray .ushort .uint input count usePrimitiveRestartFixedIndex)
    else none
  else none

example :
    convertIndices .ushort .uint [5, 0, 255, 255, 7, 0] 3 false =
      some [5, 65535, 7] := by decide

example :
    convertIndices .ushort .uint [5, 0, 255, 255, 7, 0] 3 true =
      some [5, 4294967295, 7] := by decide

/-- The possible referents of the descriptor fields `storage` /
`indexBuffer`: the original source buffer, one of the two streaming
scratch buffers, or the static translation cache of a source buffer. -/
inductive BufferRef
  | sourceBuf
  | streamingShort
  | streamingInt
  | staticCacheBuf
deriving DecidableEq, Repr

/-- Observable side effects of a call, in order of occurrence. -/
inductive Event
  | reserveEv (target : BufferRef) (size : Nat)
  | mapEv (target : BufferRef) (size : Nat)
  | convertEv (target : BufferRef) (data : List Nat)
  | unmapEv (target : BufferRef)
  | invalidateEv
  | promoteEv (size : Nat)
deriving DecidableEq, Repr

/-- The error taxonomy: the capacity (out-of-memory) failure raised by
`StreamInIndexBuffer` itself, failures of the backend buffer operations,
a source-read failure from `BufferD3D::getData`, and the
`ASSERT`/`UNREACHABLE` contract violation in `ConvertIndices`. -/
inductive GlError
  | outOfMemory
  | reserveFailure
  | mapFailure
  | unmapFailure
  | sourceReadFailure
  | contractViolation
deriving DecidableEq, Repr

/-- Modelled from the spec: the backend index-buffer object
(`IndexBufferInterface` in `IndexBuffer.h`, not among the sources),
per spec sections 4.4 and 6: a reserved byte capacity, a recorded
element width, a monotonically advancing write position that wraps to 0
when the region is exhausted, and an identity token bumped whenever the
backing storage changes.  The three failure flags inject the external
backend failures of `reserve` / `map` / `unmap`. -/
structure IndexBufferInterfaceState where
  bufferSize : Nat
  indexType : GLType
  writeOffset : Nat
  serial : Nat
  reserveFail : Bool
  mapFail : Bool
  unmapFail : Bool
deriving DecidableEq, Repr

/-- Modelled from the spec: `reserve(bytes, width)` grows the capacity
when insufficient (amortized doubling, discarding the old region) and
records the element width. -/
def reserveBufferSpace (b : IndexBufferInterfaceState) (size : Nat) (ty : GLType) :
    Except GlError IndexBufferInterfaceState :=
  if b.reserveFail then .error .reserveFailure
  else if b.bufferSize < size then
    .ok { b with bufferSize := max size (2 * b.bufferSize), indexType := ty,
                 writeOffset := 0, serial := b.serial + 1 }
  else .ok { b with indexType := ty }

/-- Modelled from the spec: `map(bytes)` returns the byte offset of a
writable region; the offset advances monotonically within a generation
and wraps to 0 (bumping the identity token) when the region is
exhausted. -/
def mapBuffer (b : IndexBufferInterfaceState) (size : Nat) :
    Except GlError (IndexBufferInterfaceState × Nat) :=
  if b.mapFail then .error .mapFailure
  else if b.bufferSize < b.writeOffset + size then
    .ok ({ b with writeOffset := size, serial := b.serial + 1 }, 0)
  else .ok ({ b with writeOffset := b.writeOffset + size }, b.writeOffset)

/-- Modelled from the spec: `unmap()` finalizes the write. -/
def unmapBuffer (b : IndexBufferInterfaceState) :
    Except GlError IndexBufferInterfaceState :=
  if b.unmapFail then .error .unmapFailure else .ok b

/-- Modelled from the spec: the source buffer collaborator (`BufferD3D`,
not among the sources), per spec sections 3 and 6: byte size,
direct-binding support, an identity token, at most one static
translation cache, and the byte content produced by `getData`
(`none` models a source-read failure). -/
structure BufferD3D where
  size : Nat
  supportsDirectBinding : Bool
  serial : Nat
  staticIndexBuffer : Option IndexBufferInterfaceState
  content : Option (List Nat)
deriving DecidableEq, Repr

deriving instance DecidableEq for Except

/-- The result of one `StreamInIndexBuffer` call: the events it
performed, and on success the updated buffer object together with the
byte offset at which the data was written. -/
structure StreamOutcome where
  events : List Event
  result : Except GlError (IndexBufferInterfaceState × Nat)
deriving DecidableEq, Repr

/-- `StreamInIndexBuffer`: fails with the capacity error when `count`
elements of the destination size exceed the `unsigned int` range, before
reserving, mapping or converting anything; otherwise reserves
`count << bytesShift` bytes, maps a region, converts the indices into
it, and unmaps.  `target` tags the events with the identity of the
buffer argument. -/
def StreamInIndexBuffer (target : BufferRef) (buffer : IndexBufferInterfaceState)
    (data : List Nat) (count : Nat) (srcType dstType : GLType)
    (usePrimitiveRestartFixedIndex : Bool) : StreamOutcome :=
  if UINT_MAX >>> dstType.bytesShift < count then
    { events := [], result := .error .outOfMemory }
  else
    let bufferSizeRequired := count <<< dstType.bytesShift
    match reserveBufferSpace buffer bufferSizeRequired dstType with
    | .error e => { events := [.reserveEv target bufferSizeRequired], result := .error e }
    | .ok b1 =>
      match mapBuffer b1 bufferSizeRequired with
      | .error e =>
        { events := [.reserveEv target bufferSizeRequired, .mapEv target bufferSizeRequired],
          result := .error e }
      | .ok (b2, off) =>
        match convertIndices srcType dstType data count usePrimitiveRestartFixedIndex with
        | none =>
          { events := [.reserveEv target bufferSizeRequired, .mapEv target bufferSizeRequired],
            result := .error .contractViolation }
        | some out =>
          match unmapBuffer b2 with
          | .error e =>
            { events := [.reserveEv target bufferSizeRequired,
                         .mapEv target bufferSizeRequired, .convertEv target out],
              result := .error e }
          | .ok b3 =>
            { events := [.reserveEv target bufferSizeRequired,
                         .mapEv target bufferSizeRequired, .convertEv target out,
                         .unmapEv target],
              result := .ok (b3, off) }

/-- `gl::IndexRange`: the caller-supplied pre-scanned range metadata
(`vertexIndexCount` and the `end` value of the range). -/
structure IndexRange where
  vertexIndexCount : Nat
  endVal : Nat
deriving DecidableEq, Repr

/-- `TranslatedIndexData::srcIndexData` (`SourceIndexData`): the source
description recorded on every call. -/
structure SourceIndexData where
  srcBuffer : Option BufferD3D
  srcIndices : Nat
  srcIndexType : GLType
  srcCount : Nat
deriving DecidableEq, Repr

/-- `TranslatedIndexData`: the caller-visible output descriptor. -/
structure TranslatedIndexData where
  indexRange : IndexRange
  indexType : GLType
  startIndex : Nat
  startOffset : Nat
  srcIndexData : SourceIndexData
  storage : Option BufferRef
  indexBuffer : Option BufferRef
  serial : Nat
deriving DecidableEq, Repr

/-- The `IndexDataManager` instance state: the renderer class and the
two lazily created streaming buffers. -/
structure IndexDataManagerState where
  rendererClass : RendererClass
  mStreamingBufferShort : Option IndexBufferInterfaceState
  mStreamingBufferInt : Option IndexBufferInterfaceState
deriving DecidableEq, Repr

/-- Modelled from the spec: the initial reservation made when a
streaming buffer is lazily created (`INITIAL_INDEX_BUFFER_SIZE`, whose
exact value lives in the header `IndexDataManager.h`, not among the
sources; the value itself is irrelevant to the properties proved
here). -/
def INITIAL_INDEX_BUFFER_SIZE : Nat := 4096 * 4

/-- `IndexDataManager::UsePrimitiveRestartWorkaround`: active iff fixed
restart is disabled, the source type is 16-bit and the renderer is
D3D11. -/
def UsePrimitiveRestartWorkaround (primitiveRestartFixedIndexEnabled : Bool)
    (ty : GLType) (rendererClass : RendererClass) : Bool :=
  !primitiveRestartFixedIndexEnabled && ty = .ushort && rendererClass = .d3d11

/-- The `hasPrimitiveRestartIndex` expression of `prepareIndexData`:
the range covers fewer vertices than `count`, or the end value of the range
is the source restart sentinel. -/
def hasPrimitiveRestartIndexB (range : IndexRange) (srcType : GLType) (count : Nat) : Bool :=
  range.vertexIndexCount < count || range.endVal = restartIndex srcType

/-- The `primitiveRestartWorkaround` expression of `prepareIndexData`. -/
def primitiveRestartWorkaroundB (primitiveRestartFixedIndexEnabled : Bool)
    (srcType : GLType) (rendererClass : RendererClass) (range : IndexRange)
    (count : Nat) : Bool :=
  UsePrimitiveRestartWorkaround primitiveRestartFixedIndexEnabled srcType rendererClass &&
    hasPrimitiveRestartIndexB range srcType count

/-- The `dstType` expression of `prepareIndexData`:
`GL_UNSIGNED_INT` if the source is 32-bit or the workaround is active,
otherwise `GL_UNSIGNED_SHORT`. -/
def computeDstType (srcType : GLType) (primitiveRestartWorkaround : Bool) : GLType :=
  if srcType = .uint || primitiveRestartWorkaround then .uint else .ushort

/-- The `offsetAligned` switch of `prepareIndexData`: is the byte offset
a multiple of the source element size. -/
def offsetAlignedB (srcType : GLType) (offset : Nat) : Bool :=
  match srcType with
  | .ubyte => offset % 1 = 0
  | .ushort => offset % 2 = 0
  | .uint => offset % 4 = 0

/-- The `staticBufferInitialized` expression of `prepareIndexData`. -/
def staticBufferInitializedB (staticBuffer : Option IndexBufferInterfaceState) : Bool :=
  match staticBuffer with
  | some sb => sb.bufferSize ≠ 0
  | none => false

/-- The `staticBufferUsable` expression of `prepareIndexData`. -/
def staticBufferUsableB (staticBuffer : Option IndexBufferInterfaceState)
    (offsetAligned : Bool) (dstType : GLType) : Bool :=
  match staticBuffer with
  | some sb => offsetAligned && sb.indexType = dstType
  | none => false

/-- The result of one `prepareIndexData` (or `streamIndexData`) call:
events in order, the manager state, the output descriptor, the source
buffer state (when buffer-backed), and success or a typed error. -/
structure PrepareOutcome where
  events : List Event
  manager : IndexDataManagerState
  translated : TranslatedIndexData
  buffer : Option BufferD3D
  result : Except GlError Unit
deriving DecidableEq, Repr

/-- `IndexDataManager::getStreamingIndexBuffer`: picks the streaming
buffer for the destination type, lazily creating it (with an initial
reservation) on first use.  Returns the updated manager, the selected
buffer, and the tag identifying it. -/
def getStreamingIndexBuffer (m : IndexDataManagerState) (destinationIndexType : GLType) :
    List Event × Except GlError (IndexDataManagerState × IndexBufferInterfaceState × BufferRef) :=
  let tag : BufferRef :=
    if destinationIndexType = .uint then .streamingInt else .streamingShort
  let cur :=
    if destinationIndexType = .uint then m.mStreamingBufferInt else m.mStreamingBufferShort
  match cur with
  | some b => ([], .ok (m, b, tag))
  | none =>
    let fresh : IndexBufferInterfaceState :=
      { bufferSize := 0, indexType := destinationIndexType, writeOffset := 0, serial := 0,
        reserveFail := false, mapFail := false, unmapFail := false }
    match reserveBufferSpace fresh INITIAL_INDEX_BUFFER_SIZE destinationIndexType with
    | .error e => ([.reserveEv tag INITIAL_INDEX_BUFFER_SIZE], .error e)
    | .ok b =>
      let m1 :=
        if destinationIndexType = .uint then { m with mStreamingBufferInt := some b }
        else { m with mStreamingBufferShort := some b }
      ([.reserveEv tag INITIAL_INDEX_BUFFER_SIZE], .ok (m1, b, tag))

/-- `IndexDataManager::streamIndexData`: streams `count` elements of
`data` through the streaming buffer for `dstType`, then points the
descriptor at it. -/
def streamIndexData (m : IndexDataManagerState) (data : List Nat) (count : Nat)
    (srcType dstType : GLType) (usePrimitiveRestartFixedIndex : Bool)
    (translated : TranslatedIndexData) (buffer : Option BufferD3D) : PrepareOutcome :=
  match getStreamingIndexBuffer m dstType with
  | (ev1, .error e) =>
    { events := ev1, manager := m, translated := translated, buffer := buffer,
      result := .error e }
  | (ev1, .ok (m1, indexBuffer, tag)) =>
    let so := StreamInIndexBuffer tag indexBuffer data count srcType dstType
      usePrimitiveRestartFixedIndex
    match so.result with
    | .error e =>
      { events := ev1 ++ so.events, manager := m1, translated := translated,
        buffer := buffer, result := .error e }
    | .ok (b1, offset) =>
      let m2 :=
        if dstType = .uint then { m1 with mStreamingBufferInt := some b1 }
        else { m1 with mStreamingBufferShort := some b1 }
      { events := ev1 ++ so.events, manager := m2,
        translated := { translated with
          indexBuffer := some tag,
          serial := b1.serial,
          startIndex := offset >>> dstType.bytesShift,
          startOffset := offset },
        buffer := buffer, result := .ok () }

/-- The Case 2b streaming fallback of `prepareIndexData` (lines
302-319): read the buffer content, stream the slice being drawn, and on
success signal `promoteStaticUsage` with `count << bytesShift` bytes. -/
def prepareStreamFallback (m : IndexDataManagerState) (buffer1 : BufferD3D)
    (invEv : List Event) (offset : Nat) (count : Nat) (srcType dstType : GLType)
    (primitiveRestartFixedIndexEnabled : Bool) (t2 : TranslatedIndexData) : PrepareOutcome :=
  match buffer1.content with
  | none =>
    { events := invEv, manager := m, translated := t2, buffer := some buffer1,
      result := .error .sourceReadFailure }
  | some bufferData =>
    let o := streamIndexData m (bufferData.drop offset) count srcType dstType
      primitiveRestartFixedIndexEnabled t2 (some buffer1)
    match o.result with
    | .error e => { o with events := invEv ++ o.events, result := .error e }
    | .ok () =>
      { o with events := invEv ++ o.events ++ [.promoteEv (count <<< srcType.bytesShift)] }

/-- The Case 2b cached-use branch of `prepareIndexData` (lines
320-347): when the static cache is uninitialized, first build it by
converting the entire buffer content; then point the descriptor at it
at the proportionally rescaled offset. -/
def prepareCachedUse (m : IndexDataManagerState) (buffer1 : BufferD3D)
    (invEv : List Event) (sb : IndexBufferInterfaceState)
    (staticBufferInitialized : Bool) (offset : Nat) (srcType dstType : GLType)
    (primitiveRestartFixedIndexEnabled : Bool) (t2 : TranslatedIndexData) : PrepareOutcome :=
  if staticBufferInitialized then
    { events := invEv, manager := m,
      translated := { t2 with
        indexBuffer := some .staticCacheBuf,
        serial := sb.serial,
        startIndex := offset >>> srcType.bytesShift,
        startOffset := (offset >>> srcType.bytesShift) <<< dstType.bytesShift },
      buffer := some buffer1, result := .ok () }
  else
    match buffer1.content with
    | none =>
      { events := invEv, manager := m, translated := t2, buffer := some buffer1,
        result := .error .sourceReadFailure }
    | some bufferData =>
      let convertCount := (buffer1.size % U32) >>> srcType.bytesShift
      let so := StreamInIndexBuffer .staticCacheBuf sb bufferData convertCount srcType dstType
        primitiveRestartFixedIndexEnabled
      match so.result with
      | .error e =>
        { events := invEv ++ so.events, manager := m, translated := t2,
          buffer := some buffer1, result := .error e }
      | .ok (sb1, _) =>
        { events := invEv ++ so.events, manager := m,
          translated := { t2 with
            indexBuffer := some .staticCacheBuf,
            serial := sb1.serial,
            startIndex := offset >>> srcType.bytesShift,
            startOffset := (offset >>> srcType.bytesShift) <<< dstType.bytesShift },
          buffer := some { buffer1 with staticIndexBuffer := some sb1 },
          result := .ok () }

/-- `IndexDataManager::prepareIndexData`: the orchestrator.
`indicesVal` is the numeric value of the `indices` pointer (the byte
offset when buffer-backed); `indicesMem` is the client memory it points
to (used only in immediate mode). -/
def prepareIndexData (m : IndexDataManagerState) (srcType : GLType) (count : Nat)
    (glBuffer : Option BufferD3D) (indicesVal : Nat) (indicesMem : List Nat)
    (translated : TranslatedIndexData)
    (primitiveRestartFixedIndexEnabled : Bool) : PrepareOutcome :=
  let primitiveRestartWorkaround := primitiveRestartWorkaroundB
    primitiveRestartFixedIndexEnabled srcType m.rendererClass translated.indexRange count
  let dstType := computeDstType srcType primitiveRestartWorkaround
  let t1 := { translated with
    indexType := dstType,
    srcIndexData :=
      { srcBuffer := glBuffer, srcIndices := indicesVal, srcIndexType := srcType,
        srcCount := count } }
  match glBuffer with
  | none =>
    let t2 := { t1 with storage := none }
    streamIndexData m indicesMem count srcType dstType primitiveRestartFixedIndexEnabled t2 none
  | some buffer =>
    let offset := indicesVal % U32
    let offsetAligned := offsetAlignedB srcType offset
    if offsetAligned && buffer.supportsDirectBinding && dstType = srcType then
      { events := [], manager := m,
        translated := { t1 with
          storage := some .sourceBuf,
          indexBuffer := none,
          serial := buffer.serial,
          startIndex := offset >>> srcType.bytesShift,
          startOffset := offset },
        buffer := some buffer, result := .ok () }
    else
      let t2 := { t1 with storage := none }
      let staticBuffer0 := buffer.staticIndexBuffer
      let staticBufferInitialized := staticBufferInitializedB staticBuffer0
      let staticBufferUsable := staticBufferUsableB staticBuffer0 offsetAligned dstType
      let inv := staticBufferInitialized && !staticBufferUsable
      let invEv : List Event := if inv then [.invalidateEv] else []
      let buffer1 := if inv then { buffer with staticIndexBuffer := none } else buffer
      let staticBuffer := if inv then none else staticBuffer0
      match staticBuffer with
      | none =>
        prepareStreamFallback m buffer1 invEv offset count srcType dstType
          primitiveRestartFixedIndexEnabled t2
      | some sb =>
        if !offsetAligned then
          prepareStreamFallback m buffer1 invEv offset count srcType dstType
            primitiveRestartFixedIndexEnabled t2
        else
          prepareCachedUse m buffer1 invEv sb staticBufferInitialized offset srcType dstType
            primitiveRestartFixedIndexEnabled t2

/-- The sequence of index arrays written by conversions during a call,
extracted from its event trace. -/
def writtenIndexData (events : List Event) : List (List Nat) :=
  events.filterMap fun e =>
    match e with
    | .convertEv _ d => some d
    | _ => none

/-- The Scenario B input descriptor: range metadata reporting the range
end value as the 16-bit restart sentinel (so a sentinel is inferred
present); all output fields start out blank. -/
def scenBTranslated : TranslatedIndexData :=
  { indexRange := { vertexIndexCount := 3, endVal := 65535 },
    indexType := .ubyte, startIndex := 0, startOffset := 0,
    srcIndexData := { srcBuffer := none, srcIndices := 0, srcIndexType := .ubyte, srcCount := 0 },
    storage := none, indexBuffer := none, serial := 0 }

/-- Scenario B: a fresh D3D11 manager, 16-bit source, count 3, immediate
data `[5, 65535, 7]` (little-endian bytes), fixed restart disabled. -/
def scenB : PrepareOutcome :=
  prepareIndexData
    { rendererClass := .d3d11, mStreamingBufferShort := none, mStreamingBufferInt := none }
    .ushort 3 none 0 [5, 0, 255, 255, 7, 0] scenBTranslated false

/-- C1 (counterexample): on the exact Scenario B input — 16-bit source,
count 3, data `[5, 65535, 7]`, workaround active (fixed restart
disabled, D3D11, restart sentinel present in range) — the data written
to the streaming buffer is not `[5, 4294967295, 7]` as the claim
states. -/
theorem c1_counterexample :
    ¬ writtenIndexData scenB.events = [[5, 4294967295, 7]] := by decide

/-- C1 (amended): on the Scenario B input the workaround is active and the
chosen destination width is 32-bit, but the converted output written to
the streaming buffer is `[5, 65535, 7]`: the source sentinel 65535 is
widened unchanged, not remapped, because the remap flag handed to the
converter is the fixed-restart-enabled flag, which is false whenever
the workaround is active. -/
theorem c1_amended :
    primitiveRestartWorkaroundB false .ushort .d3d11 scenBTranslated.indexRange 3 = true ∧
    scenB.translated.indexType = GLType.uint ∧
    writtenIndexData scenB.events = [[5, 65535, 7]] ∧
    scenB.result = .ok () := by decide

/-- C2: the workaround is active iff fixed restart is disabled, the
source is 16-bit, the renderer is D3D11 and a restart sentinel is
inferred present from the range metadata (covered vertex count below
the element count, or range end equal to the source maximum); the
destination type is 32-bit iff the source is 32-bit or the workaround
is active, and otherwise 16-bit; an 8-bit source always yields 16-bit;
and the destination byte width never drops below the source byte
width. -/
theorem c2_format_policy (fixed : Bool) (srcType : GLType) (rc : RendererClass)
    (range : IndexRange) (count : Nat) :
    (primitiveRestartWorkaroundB fixed srcType rc range count = true ↔
      (fixed = false ∧ srcType = .ushort ∧ rc = .d3d11 ∧
        (range.vertexIndexCount < count ∨ range.endVal = restartIndex srcType))) ∧
    (computeDstType srcType (primitiveRestartWorkaroundB fixed srcType rc range count) = .uint ↔
      (srcType = .uint ∨ primitiveRestartWorkaroundB fixed srcType rc range count = true)) ∧
    ((srcType = .uint ∨ primitiveRestartWorkaroundB fixed srcType rc range count = true) ∨
      computeDstType srcType (primitiveRestartWorkaroundB fixed srcType rc range count) =
        .ushort) ∧
    (¬ srcType = .ubyte ∨
      computeDstType srcType (primitiveRestartWorkaroundB fixed srcType rc range count) =
        .ushort) ∧
    srcType.bytes ≤
      (computeDstType srcType (primitiveRestartWorkaroundB fixed srcType rc range count)).bytes := by
  have hb : hasPrimitiveRestartIndexB range srcType count = true ↔
      (range.vertexIndexCount < count ∨ range.endVal = restartIndex srcType) := by
    unfold hasPrimitiveRestartIndexB
    simp
  unfold primitiveRestartWorkaroundB UsePrimitiveRestartWorkaround computeDstType
  rcases Bool.eq_false_or_eq_true (hasPrimitiveRestartIndexB range srcType count) with hr | hr <;>
    rw [hr] at hb ⊢ <;>
    cases srcType <;> cases rc <;> cases fixed <;>
      simp_all [GLType.bytes]

/-- A little-endian decoded value is bounded by the width of the bytes
decoded. -/
theorem decodeLE_lt (l : List Nat) : decodeLE l < 2 ^ (8 * l.length) := by
  induction l with
  | nil => simp [decodeLE]
  | cons b bs ih =>
    have hpow : 2 ^ (8 * (b :: bs).length) = 2 ^ (8 * bs.length) * 256 := by
      rw [List.length_cons, Nat.mul_succ, pow_add]
      norm_num
    have hb : b % 256 < 256 := Nat.mod_lt _ (by norm_num)
    simp only [decodeLE]
    omega

/-- An element read at type `ty` is below `2 ^ (8 * ty.bytes)`. -/
theorem readElem_lt (mem : List Nat) (ty : GLType) (off i : Nat) :
    readElem mem ty off i < 2 ^ (8 * ty.bytes) := by
  unfold readElem
  have h1 : ((mem.drop (off + i * ty.bytes)).take ty.bytes).length ≤ ty.bytes := by
    rw [List.length_take]
    exact min_le_left _ _
  exact lt_of_lt_of_le (decodeLE_lt _)
    (Nat.pow_le_pow_right (by norm_num) (by omega))

/-- C3: for both widening conversions (8-bit to 16-bit and 16-bit to
32-bit), with the remap flag true every source element equal to the
source sentinel is written as the destination sentinel and every other
element is written unchanged; with the flag false every element is
written unchanged. -/
theorem c3_converter_sentinel_remap (input : List Nat) (count i : Nat) (h : i < count) :
    ((convertIndexArray .ubyte .ushort input count true)[i]? =
        some (if readElem input .ubyte 0 i = restartIndex .ubyte then restartIndex .ushort
              else readElem input .ubyte 0 i)) ∧
    ((convertIndexArray .ushort .uint input count true)[i]? =
        some (if readElem input .ushort 0 i = restartIndex .ushort then restartIndex .uint
              else readElem input .ushort 0 i)) ∧
    ((convertIndexArray .ubyte .ushort input count false)[i]? =
        some (readElem input .ubyte 0 i)) ∧
    ((convertIndexArray .ushort .uint input count false)[i]? =
        some (readElem input .ushort 0 i)) := by
  have hb : readElem input .ubyte 0 i < 2 ^ (8 * GLType.bytes .ubyte) := readElem_lt _ _ _ _
  have hs : readElem input .ushort 0 i < 2 ^ (8 * GLType.bytes .ushort) := readElem_lt _ _ _ _
  simp only [GLType.bytes] at hb hs
  norm_num at hb hs
  refine ⟨?_, ?_, ?_, ?_⟩ <;>
    simp only [convertIndexArray, restartIndex, GLType.bytes, if_true, if_false,
      Bool.false_eq_true, List.getElem?_map, List.getElem?_range, h, if_pos] <;>
    norm_num <;>
    first
    | omega
    | (split <;> simp_all <;> omega)

/-- C2 witness: a concrete prepare configuration (fixed restart
disabled, 16-bit source, D3D11, range covering 2 of 3 vertices) on
which the workaround is active. -/
theorem c2_format_policy_witness :
    primitiveRestartWorkaroundB false .ushort .d3d11
      { vertexIndexCount := 2, endVal := 0 } 3 = true := by
  have h := c2_format_policy false .ushort .d3d11 { vertexIndexCount := 2, endVal := 0 } 3
  exact h.1.mpr ⟨rfl, rfl, rfl, Or.inl (by norm_num)⟩

/-- C3 witness: converting `[7, 255]` from 8-bit to 16-bit with the
remap flag remaps the sentinel 255 to 65535. -/
theorem c3_converter_sentinel_remap_witness :
    (convertIndexArray .ubyte .ushort [7, 255] 2 true)[1]? = some 65535 := by
  have h := (c3_converter_sentinel_remap [7, 255] 2 1 (by norm_num)).1
  simpa [readElem, decodeLE, restartIndex, GLType.bytes] using h

/-- A failed `reserveBufferSpace` reports exactly the reserve failure. -/
theorem reserveBufferSpace_error_eq {b : IndexBufferInterfaceState} {s : Nat} {t : GLType}
    {e : GlError} (h : reserveBufferSpace b s t = .error e) : e = .reserveFailure := by
  unfold reserveBufferSpace at h
  split at h
  · exact (Except.error.inj h).symm
  · split at h <;> simp_all

/-- A failed `mapBuffer` reports exactly the map failure. -/
theorem mapBuffer_error_eq {b : IndexBufferInterfaceState} {s : Nat}
    {e : GlError} (h : mapBuffer b s = .error e) : e = .mapFailure := by
  unfold mapBuffer at h
  split at h
  · exact (Except.error.inj h).symm
  · split at h <;> simp_all

/-- A failed `unmapBuffer` reports exactly the unmap failure. -/
theorem unmapBuffer_error_eq {b : IndexBufferInterfaceState}
    {e : GlError} (h : unmapBuffer b = .error e) : e = .unmapFailure := by
  unfold unmapBuffer at h
  split at h
  · exact (Except.error.inj h).symm
  · simp_all

/-- C8: a streaming write fails with the capacity (out-of-memory) error
exactly when `count` exceeds the maximum `unsigned int` byte size
divided by the destination element size, and in that case it performs
no reserve, map or conversion at all (empty event trace); on the other
branch whatever failure occurs later is never the capacity error. -/
theorem c8_capacity_failure (target : BufferRef) (buffer : IndexBufferInterfaceState)
    (data : List Nat) (count : Nat) (srcType dstType : GLType) (flag : Bool) :
    ((StreamInIndexBuffer target buffer data count srcType dstType flag).result =
        .error .outOfMemory ↔ UINT_MAX >>> dstType.bytesShift < count) ∧
    (UINT_MAX >>> dstType.bytesShift < count →
      StreamInIndexBuffer target buffer data count srcType dstType flag =
        { events := [], result := .error .outOfMemory }) := by
  by_cases h : UINT_MAX >>> dstType.bytesShift < count
  · unfold StreamInIndexBuffer
    rw [if_pos h]
    simp [h]
  · have hno : (StreamInIndexBuffer target buffer data count srcType dstType flag).result ≠
        .error .outOfMemory := by
      unfold StreamInIndexBuffer
      rw [if_neg h]
      rcases hr : reserveBufferSpace buffer (count <<< dstType.bytesShift) dstType with e | b1
      · simp [hr, reserveBufferSpace_error_eq hr]
      · rcases hm : mapBuffer b1 (count <<< dstType.bytesShift) with e | b2off
        · simp [hr, hm, mapBuffer_error_eq hm]
        · rcases hc : convertIndices srcType dstType data count flag with _ | out
          · simp [hr, hm, hc]
          · rcases hu : unmapBuffer b2off.1 with e | b3
            · simp [hr, hm, hc, hu, unmapBuffer_error_eq hu]
            · simp [hr, hm, hc, hu]
    exact ⟨⟨fun hc => absurd hc hno, fun hc => absurd hc h⟩, fun hc => absurd hc h⟩

/-- C8 witness: a count of `2^31` 32-bit elements trips the capacity
check and nothing is attempted. -/
theorem c8_capacity_failure_witness :
    StreamInIndexBuffer .streamingInt
      { bufferSize := 0, indexType := .uint, writeOffset := 0, serial := 0,
        reserveFail := false, mapFail := false, unmapFail := false }
      [] 2147483648 .ushort .uint false =
      { events := [], result := .error .outOfMemory } := by
  have h := (c8_capacity_failure .streamingInt
    { bufferSize := 0, indexType := .uint, writeOffset := 0, serial := 0,
      reserveFail := false, mapFail := false, unmapFail := false }
    [] 2147483648 .ushort .uint false).2
  exact h (by decide)

/-- C9: for every source type and every workaround outcome the
orchestrator can compute, the (source, destination) pair handed to the
converter is equal widths, 8-bit to 16-bit, or 16-bit to 32-bit, and
`ConvertIndices` never reaches its contract-violation branch on such a
pair. -/
theorem c9_converter_contract (srcType : GLType) (fixed : Bool) (rc : RendererClass)
    (range : IndexRange) (count : Nat) (input : List Nat) (cnt : Nat) (flag : Bool) :
    (srcType = computeDstType srcType (primitiveRestartWorkaroundB fixed srcType rc range count) ∨
      (srcType = .ubyte ∧
        computeDstType srcType (primitiveRestartWorkaroundB fixed srcType rc range count) =
          .ushort) ∨
      (srcType = .ushort ∧
        computeDstType srcType (primitiveRestartWorkaroundB fixed srcType rc range count) =
          .uint)) ∧
    (convertIndices srcType
        (computeDstType srcType (primitiveRestartWorkaroundB fixed srcType rc range count))
        input cnt flag).isSome = true := by
  cases srcType
  · have hw : primitiveRestartWorkaroundB fixed .ubyte rc range count = false := by
      unfold primitiveRestartWorkaroundB UsePrimitiveRestartWorkaround
      simp
    simp [computeDstType, hw, convertIndices]
  · rcases Bool.eq_false_or_eq_true
      (primitiveRestartWorkaroundB fixed .ushort rc range count) with hw | hw <;>
      simp [computeDstType, hw, convertIndices]
  · rcases Bool.eq_false_or_eq_true
      (primitiveRestartWorkaroundB fixed .uint rc range count) with hw | hw <;>
      simp [computeDstType, hw, convertIndices]

/-- `streamIndexData` never touches the descriptor fields for range, source
data, destination type or storage fields. -/
theorem streamIndexData_fields (m : IndexDataManagerState) (data : List Nat) (count : Nat)
    (s d : GLType) (f : Bool) (t : TranslatedIndexData) (buf : Option BufferD3D) :
    (streamIndexData m data count s d f t buf).translated.srcIndexData = t.srcIndexData ∧
    (streamIndexData m data count s d f t buf).translated.indexType = t.indexType ∧
    (streamIndexData m data count s d f t buf).translated.indexRange = t.indexRange ∧
    (streamIndexData m data count s d f t buf).translated.storage = t.storage := by
  unfold streamIndexData
  rcases hg : getStreamingIndexBuffer m d with ⟨ev1, r1⟩
  rcases r1 with e | mib
  · simp [hg]
  · rcases mib with ⟨m1, ib, tag⟩
    rcases hs : (StreamInIndexBuffer tag ib data count s d f).result with e | b1off
    · simp [hg, hs]
    · simp [hg, hs]

/-- The streaming fallback never touches the descriptor fields for range, source
data, destination type or storage fields. -/
theorem prepareStreamFallback_fields (m : IndexDataManagerState) (buffer1 : BufferD3D)
    (invEv : List Event) (offset count : Nat) (s d : GLType) (f : Bool)
    (t : TranslatedIndexData) :
    (prepareStreamFallback m buffer1 invEv offset count s d f t).translated.srcIndexData =
      t.srcIndexData ∧
    (prepareStreamFallback m buffer1 invEv offset count s d f t).translated.indexType =
      t.indexType ∧
    (prepareStreamFallback m buffer1 invEv offset count s d f t).translated.indexRange =
      t.indexRange ∧
    (prepareStreamFallback m buffer1 invEv offset count s d f t).translated.storage =
      t.storage := by
  unfold prepareStreamFallback
  rcases hc : buffer1.content with _ | bufferData
  · simp [hc]
  · have hf := streamIndexData_fields m (bufferData.drop offset) count s d f t (some buffer1)
    rcases hs : (streamIndexData m (bufferData.drop offset) count s d f t (some buffer1)).result
      with e | u
    · simp [hc, hs, hf.1, hf.2.1, hf.2.2.1, hf.2.2.2]
    · simp [hc, hs, hf.1, hf.2.1, hf.2.2.1, hf.2.2.2]

/-- The cached-use branch never touches the descriptor fields for range, source
data, destination type or storage fields. -/
theorem prepareCachedUse_fields (m : IndexDataManagerState) (buffer1 : BufferD3D)
    (invEv : List Event) (sb : IndexBufferInterfaceState) (init : Bool)
    (offset : Nat) (s d : GLType) (f : Bool) (t : TranslatedIndexData) :
    (prepareCachedUse m buffer1 invEv sb init offset s d f t).translated.srcIndexData =
      t.srcIndexData ∧
    (prepareCachedUse m buffer1 invEv sb init offset s d f t).translated.indexType =
      t.indexType ∧
    (prepareCachedUse m buffer1 invEv sb init offset s d f t).translated.indexRange =
      t.indexRange ∧
    (prepareCachedUse m buffer1 invEv sb init offset s d f t).translated.storage =
      t.storage := by
  unfold prepareCachedUse
  cases init
  · rcases hc : buffer1.content with _ | bufferData
    · simp [hc]
    · rcases hs : (StreamInIndexBuffer .staticCacheBuf sb bufferData
          ((buffer1.size % U32) >>> s.bytesShift) s d f).result with e | sb1off
      · simp [hc, hs]
      · simp [hc, hs]
  · simp

/-- C10: every prepare call — including every failing one — overwrites
the destination index type of the output descriptor and its source-data
fields (source buffer, source pointer value, source type, source count)
with the values computed for this call. -/
theorem c10_descriptor_mutated (m : IndexDataManagerState) (srcType : GLType)
    (count : Nat) (glBuffer : Option BufferD3D) (indicesVal : Nat) (indicesMem : List Nat)
    (translated : TranslatedIndexData) (fixed : Bool) :
    (prepareIndexData m srcType count glBuffer indicesVal indicesMem
        translated fixed).translated.srcIndexData =
      { srcBuffer := glBuffer, srcIndices := indicesVal, srcIndexType := srcType,
        srcCount := count } ∧
    (prepareIndexData m srcType count glBuffer indicesVal indicesMem
        translated fixed).translated.indexType =
      computeDstType srcType
        (primitiveRestartWorkaroundB fixed srcType m.rendererClass
          translated.indexRange count) := by
  rcases glBuffer with _ | buffer <;> simp only [prepareIndexData]
  · simp [streamIndexData_fields]
  · split
    · simp
    · split
      · simp [prepareStreamFallback_fields]
      · split
        · simp [prepareStreamFallback_fields]
        · simp [prepareCachedUse_fields]

/-- Shifting right by the shift of an element type divides by its byte size. -/
theorem shiftRight_bytesShift (ty : GLType) (x : Nat) :
    x >>> ty.bytesShift = x / ty.bytes := by
  cases ty <;> simp [GLType.bytesShift, GLType.bytes, Nat.shiftRight_eq_div_pow]

/-- Shifting left by the shift of an element type multiplies by its byte size. -/
theorem shiftLeft_bytesShift (ty : GLType) (x : Nat) :
    x <<< ty.bytesShift = x * ty.bytes := by
  cases ty <;> simp [GLType.bytesShift, GLType.bytes, Nat.shiftLeft_eq]

/-- The alignment switch agrees with divisibility by the element size. -/
theorem offsetAlignedB_eq (ty : GLType) (off : Nat) :
    offsetAlignedB ty off = true ↔ off % ty.bytes = 0 := by
  cases ty <;> simp [offsetAlignedB, GLType.bytes]

/-- C5: a buffer-backed call whose byte offset is a multiple of the
source element size, whose required destination width equals the source
width, and whose buffer supports direct binding succeeds with no events
at all (no bytes converted or copied, no buffer mutated), returning a
descriptor that references the original source buffer with
`startIndex = byteOffset / elementSize` and `startOffset = byteOffset`. -/
theorem c5_direct_binding (m : IndexDataManagerState) (srcType : GLType) (count : Nat)
    (buffer : BufferD3D) (indicesVal : Nat) (indicesMem : List Nat)
    (translated : TranslatedIndexData) (fixed : Bool)
    (halign : (indicesVal % U32) % srcType.bytes = 0)
    (hdirect : buffer.supportsDirectBinding = true)
    (hwidth : computeDstType srcType (primitiveRestartWorkaroundB fixed srcType
        m.rendererClass translated.indexRange count) = srcType) :
    prepareIndexData m srcType count (some buffer) indicesVal indicesMem translated fixed =
      { events := [], manager := m,
        translated := { translated with
          indexType := srcType,
          srcIndexData := { srcBuffer := some buffer, srcIndices := indicesVal,
                            srcIndexType := srcType, srcCount := count },
          storage := some .sourceBuf,
          indexBuffer := none,
          serial := buffer.serial,
          startIndex := (indicesVal % U32) / srcType.bytes,
          startOffset := indicesVal % U32 },
        buffer := some buffer, result := .ok () } := by
  have haB : offsetAlignedB srcType (indicesVal % U32) = true :=
    (offsetAlignedB_eq srcType (indicesVal % U32)).mpr halign
  simp only [prepareIndexData]
  rw [hwidth]
  simp [haB, hdirect, shiftRight_bytesShift]

/-- C5 witness: a concrete aligned, width-matching, direct-binding
buffer call returns the source buffer untouched. -/
theorem c5_direct_binding_witness :
    prepareIndexData
      { rendererClass := .d3d11, mStreamingBufferShort := none, mStreamingBufferInt := none }
      .ushort 2
      (some { size := 4, supportsDirectBinding := true, serial := 7,
              staticIndexBuffer := none, content := some [1, 0, 2, 0] })
      2 [] (scenBTranslated) true =
      { events := [],
        manager := { rendererClass := .d3d11, mStreamingBufferShort := none,
                     mStreamingBufferInt := none },
        translated := { scenBTranslated with
          indexType := .ushort,
          srcIndexData := { srcBuffer := some { size := 4, supportsDirectBinding := true,
                                                  serial := 7, staticIndexBuffer := none,
                                                  content := some [1, 0, 2, 0] },
                            srcIndices := 2, srcIndexType := .ushort, srcCount := 2 },
          storage := some .sourceBuf,
          indexBuffer := none,
          serial := 7,
          startIndex := 1,
          startOffset := 2 },
        buffer := some { size := 4, supportsDirectBinding := true, serial := 7,
                         staticIndexBuffer := none, content := some [1, 0, 2, 0] },
        result := .ok () } := by
  have h := c5_direct_binding
    { rendererClass := .d3d11, mStreamingBufferShort := none, mStreamingBufferInt := none }
    .ushort 2
    { size := 4, supportsDirectBinding := true, serial := 7,
      staticIndexBuffer := none, content := some [1, 0, 2, 0] }
    2 [] scenBTranslated true (by decide) (by decide) (by decide)
  simpa using h

/-- `streamIndexData` reports back exactly the buffer state it was
handed. -/
theorem streamIndexData_buffer (m : IndexDataManagerState) (data : List Nat) (count : Nat)
    (s d : GLType) (f : Bool) (t : TranslatedIndexData) (buf : Option BufferD3D) :
    (streamIndexData m data count s d f t buf).buffer = buf := by
  unfold streamIndexData
  rcases hg : getStreamingIndexBuffer m d with ⟨ev1, r1⟩
  rcases r1 with e | mib
  · simp [hg]
  · rcases mib with ⟨m1, ib, tag⟩
    rcases hs : (StreamInIndexBuffer tag ib data count s d f).result with e | b1off
    · simp [hg, hs]
    · simp [hg, hs]

/-- The streaming fallback always prepends the invalidation events it
was given, and reports the buffer state it was handed. -/
theorem prepareStreamFallback_shape (m : IndexDataManagerState) (b1 : BufferD3D)
    (invEv : List Event) (offset count : Nat) (s d : GLType) (f : Bool)
    (t : TranslatedIndexData) :
    (∃ rest, (prepareStreamFallback m b1 invEv offset count s d f t).events =
      invEv ++ rest) ∧
    (prepareStreamFallback m b1 invEv offset count s d f t).buffer = some b1 := by
  unfold prepareStreamFallback
  rcases hc : b1.content with _ | bd
  · simp [hc]
  · rcases hs : (streamIndexData m (bd.drop offset) count s d f t (some b1)).result with e | u
    · refine ⟨⟨(streamIndexData m (bd.drop offset) count s d f t (some b1)).events,
        by simp [hc, hs]⟩, ?_⟩
      simp [hc, hs, streamIndexData_buffer]
    · refine ⟨⟨(streamIndexData m (bd.drop offset) count s d f t (some b1)).events ++
        [.promoteEv (count <<< s.bytesShift)], by simp [hc, hs]⟩, ?_⟩
      simp [hc, hs, streamIndexData_buffer]

/-- A successful streaming fallback ends its event trace with the
usage-promotion signal carrying `count << bytesShift` bytes. -/
theorem prepareStreamFallback_ok_promote (m : IndexDataManagerState) (b1 : BufferD3D)
    (invEv : List Event) (offset count : Nat) (s d : GLType) (f : Bool)
    (t : TranslatedIndexData)
    (h : (prepareStreamFallback m b1 invEv offset count s d f t).result = .ok ()) :
    ∃ pre, (prepareStreamFallback m b1 invEv offset count s d f t).events =
      invEv ++ pre ++ [.promoteEv (count <<< s.bytesShift)] := by
  unfold prepareStreamFallback at h ⊢
  rcases hc : b1.content with _ | bd
  · simp [hc] at h
  · rcases hs : (streamIndexData m (bd.drop offset) count s d f t (some b1)).result with e | u
    · simp [hc, hs] at h
    · exact ⟨(streamIndexData m (bd.drop offset) count s d f t (some b1)).events,
        by simp [hc, hs]⟩

/-- C7: a buffer-backed call that reaches Case 2b with an initialized
static cache whose recorded width differs from the required destination
width invalidates the whole cache entry (first event, and the buffer
comes back with no static cache) before falling back to streaming; when
the streaming fallback succeeds, the trace is the invalidation followed
by the streaming events and the usage-promotion signal. -/
theorem c7_stale_width_invalidation (m : IndexDataManagerState) (srcType : GLType)
    (count : Nat) (buffer : BufferD3D) (sb : IndexBufferInterfaceState)
    (indicesVal : Nat) (indicesMem : List Nat) (translated : TranslatedIndexData)
    (fixed : Bool)
    (hsb : buffer.staticIndexBuffer = some sb)
    (hinit : sb.bufferSize ≠ 0)
    (hty : sb.indexType ≠ computeDstType srcType (primitiveRestartWorkaroundB fixed srcType
        m.rendererClass translated.indexRange count))
    (hnd : buffer.supportsDirectBinding = false ∨
      computeDstType srcType (primitiveRestartWorkaroundB fixed srcType
        m.rendererClass translated.indexRange count) ≠ srcType) :
    (prepareIndexData m srcType count (some buffer) indicesVal indicesMem
        translated fixed).events.head? = some .invalidateEv ∧
    (prepareIndexData m srcType count (some buffer) indicesVal indicesMem
        translated fixed).buffer = some { buffer with staticIndexBuffer := none } ∧
    ((prepareIndexData m srcType count (some buffer) indicesVal indicesMem
        translated fixed).result = .ok () →
      ∃ pre, (prepareIndexData m srcType count (some buffer) indicesVal indicesMem
        translated fixed).events =
          .invalidateEv :: (pre ++ [.promoteEv (count <<< srcType.bytesShift)])) := by
  have hred : prepareIndexData m srcType count (some buffer) indicesVal indicesMem
      translated fixed =
      prepareStreamFallback m { buffer with staticIndexBuffer := none } [.invalidateEv]
        (indicesVal % U32) count srcType
        (computeDstType srcType (primitiveRestartWorkaroundB fixed srcType
          m.rendererClass translated.indexRange count)) fixed
        { translated with
          indexType := computeDstType srcType (primitiveRestartWorkaroundB fixed srcType
            m.rendererClass translated.indexRange count),
          srcIndexData := { srcBuffer := some buffer, srcIndices := indicesVal,
                            srcIndexType := srcType, srcCount := count },
          storage := none } := by
    simp only [prepareIndexData, hsb]
    rcases hnd with h | h <;>
      simp [h, staticBufferInitializedB, staticBufferUsableB, hinit, hty]
  rw [hred]
  obtain ⟨⟨rest, hev⟩, hbuf⟩ := prepareStreamFallback_shape m
    { buffer with staticIndexBuffer := none } [.invalidateEv] (indicesVal % U32) count srcType
    (computeDstType srcType (primitiveRestartWorkaroundB fixed srcType
      m.rendererClass translated.indexRange count)) fixed
    { translated with
      indexType := computeDstType srcType (primitiveRestartWorkaroundB fixed srcType
        m.rendererClass translated.indexRange count),
      srcIndexData := { srcBuffer := some buffer, srcIndices := indicesVal,
                        srcIndexType := srcType, srcCount := count },
      storage := none }
  refine ⟨by rw [hev]; rfl, hbuf, fun hok => ?_⟩
  obtain ⟨pre, hp⟩ := prepareStreamFallback_ok_promote m
    { buffer with staticIndexBuffer := none } [.invalidateEv] (indicesVal % U32) count srcType
    (computeDstType srcType (primitiveRestartWorkaroundB fixed srcType
      m.rendererClass translated.indexRange count)) fixed
    { translated with
      indexType := computeDstType srcType (primitiveRestartWorkaroundB fixed srcType
        m.rendererClass translated.indexRange count),
      srcIndexData := { srcBuffer := some buffer, srcIndices := indicesVal,
                        srcIndexType := srcType, srcCount := count },
      storage := none } hok
  exact ⟨pre, by simpa using hp⟩

/-- A concrete buffer whose static cache is initialized at 32-bit width
while a 16-bit destination is required. -/
def staleWidthBuffer : BufferD3D :=
  { size := 6, supportsDirectBinding := false, serial := 9,
    staticIndexBuffer := some { bufferSize := 4, indexType := .uint, writeOffset := 0,
                                serial := 3, reserveFail := false, mapFail := false,
                                unmapFail := false },
    content := some [5, 0, 255, 255, 7, 0] }

/-- C7 witness: on a concrete stale-width cache the first event is the
invalidation and the buffer comes back with its cache discarded. -/
theorem c7_stale_width_invalidation_witness :
    (prepareIndexData
      { rendererClass := .d3d11, mStreamingBufferShort := none, mStreamingBufferInt := none }
      .ushort 2 (some staleWidthBuffer) 0 [] scenBTranslated true).events.head? =
        some .invalidateEv ∧
    (prepareIndexData
      { rendererClass := .d3d11, mStreamingBufferShort := none, mStreamingBufferInt := none }
      .ushort 2 (some staleWidthBuffer) 0 [] scenBTranslated true).buffer =
        some { staleWidthBuffer with staticIndexBuffer := none } := by
  have h := c7_stale_width_invalidation
    { rendererClass := .d3d11, mStreamingBufferShort := none, mStreamingBufferInt := none }
    .ushort 2 staleWidthBuffer
    { bufferSize := 4, indexType := .uint, writeOffset := 0, serial := 3,
      reserveFail := false, mapFail := false, unmapFail := false }
    0 [] scenBTranslated true (by decide) (by decide) (by decide) (Or.inl (by decide))
  exact ⟨h.1, h.2.1⟩

/-- C4: every buffer-backed call that takes the Case 2b streaming
fallback (no usable static cache: cache absent, offset misaligned, or
cache initialized but unusable) and succeeds ends its event trace with
the usage-promotion signal; the signalled byte size `count << shift`
equals `count` source elements exactly. -/
theorem c4_stream_fallback_promotes (m : IndexDataManagerState) (srcType : GLType)
    (count : Nat) (buffer : BufferD3D) (indicesVal : Nat) (indicesMem : List Nat)
    (translated : TranslatedIndexData) (fixed : Bool)
    (hnd : ¬ (offsetAlignedB srcType (indicesVal % U32) = true ∧
      buffer.supportsDirectBinding = true ∧
      computeDstType srcType (primitiveRestartWorkaroundB fixed srcType
        m.rendererClass translated.indexRange count) = srcType))
    (hstream : buffer.staticIndexBuffer = none ∨
      offsetAlignedB srcType (indicesVal % U32) = false ∨
      (staticBufferInitializedB buffer.staticIndexBuffer = true ∧
        staticBufferUsableB buffer.staticIndexBuffer
          (offsetAlignedB srcType (indicesVal % U32))
          (computeDstType srcType (primitiveRestartWorkaroundB fixed srcType
            m.rendererClass translated.indexRange count)) = false)) :
    count <<< srcType.bytesShift = count * srcType.bytes ∧
    ((prepareIndexData m srcType count (some buffer) indicesVal indicesMem
        translated fixed).result = .ok () →
      ∃ pre, (prepareIndexData m srcType count (some buffer) indicesVal indicesMem
        translated fixed).events =
          pre ++ [.promoteEv (count <<< srcType.bytesShift)]) := by
  refine ⟨shiftLeft_bytesShift srcType count, fun hok => ?_⟩
  have hcond : (offsetAlignedB srcType (indicesVal % U32) && buffer.supportsDirectBinding &&
      decide (computeDstType srcType (primitiveRestartWorkaroundB fixed srcType
        m.rendererClass translated.indexRange count) = srcType)) = false := by
    cases ha : offsetAlignedB srcType (indicesVal % U32) with
    | false => simp [ha]
    | true =>
      cases hb : buffer.supportsDirectBinding with
      | false => simp [ha, hb]
      | true =>
        have hc : ¬ computeDstType srcType (primitiveRestartWorkaroundB fixed srcType
            m.rendererClass translated.indexRange count) = srcType :=
          fun hcc => hnd ⟨ha, hb, hcc⟩
        simp [ha, hb, hc]
  simp only [prepareIndexData] at hok ⊢
  rcases hstream with hn | hstream
  · simp only [hn, hcond] at hok ⊢
    simp [staticBufferInitializedB] at hok ⊢
    obtain ⟨pre, hp⟩ := prepareStreamFallback_ok_promote _ _ _ _ _ _ _ _ _ hok
    simp only [List.nil_append] at hp
    exact ⟨pre, hp⟩
  rcases hstream with ha | ⟨hi, hu⟩
  · rcases hsb : buffer.staticIndexBuffer with _ | sb
    · simp only [hsb, hcond] at hok ⊢
      simp [staticBufferInitializedB] at hok ⊢
      obtain ⟨pre, hp⟩ := prepareStreamFallback_ok_promote _ _ _ _ _ _ _ _ _ hok
      simp only [List.nil_append] at hp
      exact ⟨pre, hp⟩
    · cases hi : staticBufferInitializedB (some sb) with
      | false =>
        simp only [hsb, hcond] at hok ⊢
        simp [ha, hi, staticBufferUsableB] at hok ⊢
        obtain ⟨pre, hp⟩ := prepareStreamFallback_ok_promote _ _ _ _ _ _ _ _ _ hok
        simp only [List.nil_append] at hp
        exact ⟨pre, hp⟩
      | true =>
        simp only [hsb, hcond] at hok ⊢
        simp [ha, hi, staticBufferUsableB] at hok ⊢
        obtain ⟨pre, hp⟩ := prepareStreamFallback_ok_promote _ _ _ _ _ _ _ _ _ hok
        exact ⟨.invalidateEv :: pre, by simp [hp]⟩
  · rcases hsb : buffer.staticIndexBuffer with _ | sb
    · rw [hsb] at hi
      exact absurd hi (by simp [staticBufferInitializedB])
    · rw [hsb] at hi hu
      simp only [hsb, hcond] at hok ⊢
      simp [hi, hu] at hok ⊢
      obtain ⟨pre, hp⟩ := prepareStreamFallback_ok_promote _ _ _ _ _ _ _ _ _ hok
      exact ⟨.invalidateEv :: pre, by simp [hp]⟩

/-- A concrete buffer with no static cache and no direct-binding
support, forcing the streaming fallback. -/
def noCacheBuffer : BufferD3D :=
  { size := 6, supportsDirectBinding := false, serial := 5,
    staticIndexBuffer := none, content := some [5, 0, 255, 255, 7, 0] }

/-- C4 witness: a concrete cache-less buffer-backed call streams and
then signals usage promotion for 3 16-bit elements (6 bytes). -/
theorem c4_stream_fallback_promotes_witness :
    ∃ pre, (prepareIndexData
      { rendererClass := .d3d11, mStreamingBufferShort := none, mStreamingBufferInt := none }
      .ushort 3 (some noCacheBuffer) 0 [] scenBTranslated true).events =
        pre ++ [Event.promoteEv 6] := by
  have h := (c4_stream_fallback_promotes
    { rendererClass := .d3d11, mStreamingBufferShort := none, mStreamingBufferInt := none }
    .ushort 3 noCacheBuffer 0 [] scenBTranslated true
    (by decide) (Or.inl (by decide))).2 (by decide)
  simpa using h

/-- A successful `StreamInIndexBuffer` call reserved, mapped, converted
and unmapped exactly once, writing the output of `ConvertIndices` on
its full input. -/
theorem StreamInIndexBuffer_ok_events (target : BufferRef)
    (buffer : IndexBufferInterfaceState) (data : List Nat) (count : Nat)
    (s d : GLType) (f : Bool)
    (h : ∃ r, (StreamInIndexBuffer target buffer data count s d f).result = .ok r) :
    ∃ out, convertIndices s d data count f = some out ∧
      (StreamInIndexBuffer target buffer data count s d f).events =
        [.reserveEv target (count <<< d.bytesShift), .mapEv target (count <<< d.bytesShift),
         .convertEv target out, .unmapEv target] := by
  rcases h with ⟨r, h⟩
  unfold StreamInIndexBuffer at h ⊢
  by_cases hbig : UINT_MAX >>> d.bytesShift < count
  · simp [hbig] at h
  · simp only [hbig, if_false] at h ⊢
    rcases hr : reserveBufferSpace buffer (count <<< d.bytesShift) d with e | b1
    · simp [hr] at h
    · rcases hm : mapBuffer b1 (count <<< d.bytesShift) with e | b2off
      · simp [hr, hm] at h
      · rcases hc : convertIndices s d data count f with _ | out
        · simp [hr, hm, hc] at h
        · rcases hu : unmapBuffer b2off.1 with e | b3
          · simp [hr, hm, hc, hu] at h
          · exact ⟨out, rfl, by simp [hr, hm, hc, hu]⟩

/-- C6: a buffer-backed call that lands on the cached-use path (static
cache present, type-aligned offset, cache width equal to the required
destination width) returns a descriptor referencing the static-cache
buffer at the proportionally rescaled offset —
`startIndex = byteOffset / srcSize` and
`startOffset = (byteOffset / srcSize) * dstSize` — with the cache
reused as is when initialized (no events at all), and first built by
converting the entire current buffer content (not merely the current
slice) when empty. -/
theorem c6_cached_use (m : IndexDataManagerState) (srcType : GLType) (count : Nat)
    (buffer : BufferD3D) (sb : IndexBufferInterfaceState) (indicesVal : Nat)
    (indicesMem : List Nat) (translated : TranslatedIndexData) (fixed : Bool)
    (hsb : buffer.staticIndexBuffer = some sb)
    (halign : (indicesVal % U32) % srcType.bytes = 0)
    (hty : sb.indexType = computeDstType srcType (primitiveRestartWorkaroundB fixed srcType
      m.rendererClass translated.indexRange count))
    (hnd : buffer.supportsDirectBinding = false ∨
      computeDstType srcType (primitiveRestartWorkaroundB fixed srcType
        m.rendererClass translated.indexRange count) ≠ srcType) :
    (sb.bufferSize ≠ 0 →
      prepareIndexData m srcType count (some buffer) indicesVal indicesMem translated fixed =
        { events := [], manager := m,
          translated := { translated with
            indexType := computeDstType srcType (primitiveRestartWorkaroundB fixed srcType
              m.rendererClass translated.indexRange count),
            srcIndexData := { srcBuffer := some buffer, srcIndices := indicesVal,
                              srcIndexType := srcType, srcCount := count },
            storage := none,
            indexBuffer := some .staticCacheBuf,
            serial := sb.serial,
            startIndex := (indicesVal % U32) / srcType.bytes,
            startOffset := ((indicesVal % U32) / srcType.bytes) *
              (computeDstType srcType (primitiveRestartWorkaroundB fixed srcType
                m.rendererClass translated.indexRange count)).bytes },
          buffer := some buffer, result := .ok () }) ∧
    (sb.bufferSize = 0 →
      ∀ bd, buffer.content = some bd →
        (prepareIndexData m srcType count (some buffer) indicesVal indicesMem
            translated fixed).result = .ok () →
          writtenIndexData (prepareIndexData m srcType count (some buffer) indicesVal
              indicesMem translated fixed).events =
            (convertIndices srcType
              (computeDstType srcType (primitiveRestartWorkaroundB fixed srcType
                m.rendererClass translated.indexRange count))
              bd ((buffer.size % U32) >>> srcType.bytesShift) fixed).toList ∧
          (prepareIndexData m srcType count (some buffer) indicesVal indicesMem
              translated fixed).translated.indexBuffer = some .staticCacheBuf ∧
          (prepareIndexData m srcType count (some buffer) indicesVal indicesMem
              translated fixed).translated.startIndex = (indicesVal % U32) / srcType.bytes ∧
          (prepareIndexData m srcType count (some buffer) indicesVal indicesMem
              translated fixed).translated.startOffset =
            ((indicesVal % U32) / srcType.bytes) *
              (computeDstType srcType (primitiveRestartWorkaroundB fixed srcType
                m.rendererClass translated.indexRange count)).bytes) := by
  have haB : offsetAlignedB srcType (indicesVal % U32) = true :=
    (offsetAlignedB_eq srcType (indicesVal % U32)).mpr halign
  have hcond : (offsetAlignedB srcType (indicesVal % U32) && buffer.supportsDirectBinding &&
      decide (computeDstType srcType (primitiveRestartWorkaroundB fixed srcType
        m.rendererClass translated.indexRange count) = srcType)) = false := by
    rcases hnd with h | h <;> simp [h]
  have hred : prepareIndexData m srcType count (some buffer) indicesVal indicesMem
      translated fixed =
      prepareCachedUse m buffer [] sb (staticBufferInitializedB (some sb)) (indicesVal % U32)
        srcType
        (computeDstType srcType (primitiveRestartWorkaroundB fixed srcType
          m.rendererClass translated.indexRange count)) fixed
        { translated with
          indexType := computeDstType srcType (primitiveRestartWorkaroundB fixed srcType
            m.rendererClass translated.indexRange count),
          srcIndexData := { srcBuffer := some buffer, srcIndices := indicesVal,
                            srcIndexType := srcType, srcCount := count },
          storage := none } := by
    simp only [prepareIndexData, hsb]
    simp [hcond, haB, staticBufferUsableB, hty]
    all_goals rcases hnd with h | h <;> simp [h]
  rw [hred]
  constructor
  · intro hA
    have hi : staticBufferInitializedB (some sb) = true := by
      simp [staticBufferInitializedB, hA]
    rw [hi]
    unfold prepareCachedUse
    simp [shiftRight_bytesShift, shiftLeft_bytesShift]
  · intro hA bd hbd hok
    have hi : staticBufferInitializedB (some sb) = false := by
      simp [staticBufferInitializedB, hA]
    rw [hi] at hok ⊢
    unfold prepareCachedUse at hok ⊢
    simp only [Bool.false_eq_true, if_false, hbd] at hok ⊢
    rcases hs : (StreamInIndexBuffer .staticCacheBuf sb bd
        ((buffer.size % U32) >>> srcType.bytesShift) srcType
        (computeDstType srcType (primitiveRestartWorkaroundB fixed srcType
          m.rendererClass translated.indexRange count)) fixed).result with e | sb1off
    · simp [hs] at hok
    · obtain ⟨out, hco, hev⟩ := StreamInIndexBuffer_ok_events _ _ _ _ _ _ _ ⟨sb1off, hs⟩
      simp only [shiftRight_bytesShift, shiftLeft_bytesShift] at hs hev hco ⊢
      simp [hs, hev, hco, writtenIndexData]

/-- A concrete buffer carrying an empty 16-bit static cache and 4 bytes
of content. -/
def emptyCacheBuffer : BufferD3D :=
  { size := 4, supportsDirectBinding := false, serial := 9,
    staticIndexBuffer := some { bufferSize := 0, indexType := .ushort, writeOffset := 0,
                                serial := 3, reserveFail := false, mapFail := false,
                                unmapFail := false },
    content := some [5, 0, 9, 0] }

/-- C6 witness: on a concrete empty cache the whole 2-element buffer is
converted (draw count is 1) and the descriptor points into the cache at
the rescaled offset. -/
theorem c6_cached_use_witness :
    writtenIndexData (prepareIndexData
      { rendererClass := .d3d11, mStreamingBufferShort := none, mStreamingBufferInt := none }
      .ushort 1 (some emptyCacheBuffer) 2 [] scenBTranslated true).events = [[5, 9]] ∧
    (prepareIndexData
      { rendererClass := .d3d11, mStreamingBufferShort := none, mStreamingBufferInt := none }
      .ushort 1 (some emptyCacheBuffer) 2 [] scenBTranslated true).translated.indexBuffer =
        some .staticCacheBuf ∧
    (prepareIndexData
      { rendererClass := .d3d11, mStreamingBufferShort := none, mStreamingBufferInt := none }
      .ushort 1 (some emptyCacheBuffer) 2 [] scenBTranslated true).translated.startIndex = 1 ∧
    (prepareIndexData
      { rendererClass := .d3d11, mStreamingBufferShort := none, mStreamingBufferInt := none }
      .ushort 1 (some emptyCacheBuffer) 2 [] scenBTranslated true).translated.startOffset =
        2 := by
  have h := (c6_cached_use
    { rendererClass := .d3d11, mStreamingBufferShort := none, mStreamingBufferInt := none }
    .ushort 1 emptyCacheBuffer
    { bufferSize := 0, indexType := .ushort, writeOffset := 0, serial := 3,
      reserveFail := false, mapFail := false, unmapFail := false }
    2 [] scenBTranslated true rfl (by decide) (by decide) (Or.inl rfl)).2
    rfl [5, 0, 9, 0] rfl (by decide)
  obtain ⟨h1, h2, h3, h4⟩ := h
  refine ⟨?_, h2, ?_, ?_⟩
  · rw [h1]
    decide
  · rw [h3]
    decide
  · rw [h4]
    decide
